import Mathlib

/-
  Verification development for the google-tasks-mcp repository.

  The embedding follows src/index.js (tool registry and dispatch) and
  src/tasks-api.js (data client). JavaScript values that may be absent
  (undefined) are modelled as Option; the remote Google Tasks service and
  the process clock are modelled as an explicit environment, and every
  operation also returns the list of remote calls it issued.
-/

namespace GoogleTasksMcp

/-- JSON-like values as produced by the handlers and consumed by the
serializer. The constructor undef models a JavaScript undefined stored in an
object property: the serializer drops object entries whose value is undefined
and renders undefined array elements as null. -/
inductive Json where
  | null : Json
  | bool : Bool → Json
  | str : String → Json
  | arr : List Json → Json
  | obj : List (String × Json) → Json
  | undef : Json

/-- The JavaScript expression x || "" for a possibly absent string x: absence
and the empty string are both falsy, so both fall back to "". -/
def jsOrEmpty : Option String → String
  | none => ""
  | some s => if s = "" then "" else s

/-- The JavaScript expression x || null for a possibly absent string x:
absence and the empty string both fall back to null (modelled as none). -/
def jsOrNull : Option String → Option String
  | none => none
  | some s => if s = "" then none else some s

/-- The JavaScript expression x || d used by the dispatcher defaults, such as
args.tasklist_id || "@default". -/
def jsOrDefault (x : Option String) (d : String) : String :=
  match x with
  | none => d
  | some s => if s = "" then d else s

/-- A raw task record as the remote service returns it: every field may be
absent (JavaScript undefined). -/
structure RawTask where
  id : Option String := none
  title : Option String := none
  notes : Option String := none
  status : Option String := none
  due : Option String := none
  completed : Option String := none
  parent : Option String := none
  position : Option String := none
  updated : Option String := none
  selfLink : Option String := none
deriving DecidableEq

/-- The normalized task shape produced by formatTask: title and notes are
plain strings, due, completed, parent and position are null (none) or a
string, and id, status, updated and selfLink pass through possibly absent. -/
structure FormattedTask where
  id : Option String
  title : String
  notes : String
  status : Option String
  due : Option String
  completed : Option String
  parent : Option String
  position : Option String
  updated : Option String
  selfLink : Option String
deriving DecidableEq

/-- tasks-api.js formatTask (lines 145-158): the normalization applied to
every raw task record before it is returned. -/
def formatTask (t : RawTask) : FormattedTask :=
  { id := t.id
    title := jsOrEmpty t.title
    notes := jsOrEmpty t.notes
    status := t.status
    due := jsOrNull t.due
    completed := jsOrNull t.completed
    parent := jsOrNull t.parent
    position := jsOrNull t.position
    updated := t.updated
    selfLink := t.selfLink }

/-- Reading a formatted task back as a raw record, as happens when formatTask
is applied to an already formatted object: title and notes are present
strings, a null field reads as absent for the JavaScript truthiness defaults
(null and undefined are both falsy). -/
def FormattedTask.toRaw (f : FormattedTask) : RawTask :=
  { id := f.id
    title := some f.title
    notes := some f.notes
    status := f.status
    due := f.due
    completed := f.completed
    parent := f.parent
    position := f.position
    updated := f.updated
    selfLink := f.selfLink }

/-- A pass-through property: undefined when the source field is absent. -/
def Json.optUndef : Option String → Json
  | none => .undef
  | some s => .str s

/-- A null-or-string property: null when the normalized field is none. -/
def Json.optNull : Option String → Json
  | none => .null
  | some s => .str s

/-- The key-value pairs of the JavaScript object formatTask builds, in source
order. -/
def FormattedTask.jsonPairs (f : FormattedTask) : List (String × Json) :=
  [("id", Json.optUndef f.id),
   ("title", .str f.title),
   ("notes", .str f.notes),
   ("status", Json.optUndef f.status),
   ("due", Json.optNull f.due),
   ("completed", Json.optNull f.completed),
   ("parent", Json.optNull f.parent),
   ("position", Json.optNull f.position),
   ("updated", Json.optUndef f.updated),
   ("selfLink", Json.optUndef f.selfLink)]

/-- The normalized task as a JSON value. -/
def FormattedTask.toJson (f : FormattedTask) : Json := .obj f.jsonPairs

/-- A raw task-list record from the remote service. -/
structure RawTaskList where
  id : Option String := none
  title : Option String := none
  updated : Option String := none
deriving DecidableEq

/-- The shape listTaskLists maps each raw list record to:
(l) => (id, title, updated), all passed through unchanged. -/
structure TaskListOut where
  id : Option String
  title : Option String
  updated : Option String
deriving DecidableEq

/-- tasks-api.js listTaskLists record mapper (lines 43-47). -/
def formatTaskList (l : RawTaskList) : TaskListOut :=
  { id := l.id, title := l.title, updated := l.updated }

/-- The task-list record as a JSON value. -/
def TaskListOut.toJson (l : TaskListOut) : Json :=
  .obj [("id", Json.optUndef l.id),
        ("title", Json.optUndef l.title),
        ("updated", Json.optUndef l.updated)]

/-- Whether a JSON value is the undefined marker. -/
def Json.isUndef : Json → Bool
  | .undef => true
  | _ => false

/-- One hexadecimal digit. -/
def hexDigit (n : Nat) : String :=
  if n < 10 then String.singleton (Char.ofNat (48 + n))
  else String.singleton (Char.ofNat (87 + n))

/-- One character escaped as the JSON serializer quotes strings. -/
def escapeChar (c : Char) : String :=
  if c = '"' then "\\\""
  else if c = '\\' then "\\\\"
  else if c = '\x08' then "\\b"
  else if c = '\x09' then "\\t"
  else if c = '\x0a' then "\\n"
  else if c = '\x0c' then "\\f"
  else if c = '\x0d' then "\\r"
  else if c.toNat < 32 then "\\u00" ++ hexDigit (c.toNat / 16) ++ hexDigit (c.toNat % 16)
  else String.singleton c

/-- A string quoted and escaped for JSON output. -/
def quoteString (s : String) : String :=
  "\"" ++ String.join (s.toList.map escapeChar) ++ "\""

/-- The whitespace added per nesting level: JSON.stringify(v, null, 2) uses a
two-space gap. -/
def indentStr (n : Nat) : String := String.join (List.replicate n "  ")

mutual

/-- JSON.stringify(v, null, 2) at nesting depth d. An undefined array element
renders as null; an object entry whose value is undefined is dropped. (A
top-level undefined never occurs here: every handler result is an object or
an array.) -/
def renderJson (d : Nat) : Json → String
  | .null => "null"
  | .bool b => if b then "true" else "false"
  | .str s => quoteString s
  | .undef => "null"
  | .arr xs =>
    match renderItems (d + 1) xs with
    | [] => "[]"
    | lines =>
      "[\n" ++ indentStr (d + 1) ++
        String.intercalate (",\n" ++ indentStr (d + 1)) lines ++
        "\n" ++ indentStr d ++ "]"
  | .obj fs =>
    match renderFields (d + 1) fs with
    | [] => "\x7b\x7d"
    | lines =>
      "\x7b\n" ++ indentStr (d + 1) ++
        String.intercalate (",\n" ++ indentStr (d + 1)) lines ++
        "\n" ++ indentStr d ++ "\x7d"

/-- The rendered elements of an array. -/
def renderItems (d : Nat) : List Json → List String
  | [] => []
  | x :: xs => renderJson d x :: renderItems d xs

/-- The rendered entries of an object, skipping undefined values as the
serializer does. -/
def renderFields (d : Nat) : List (String × Json) → List String
  | [] => []
  | (k, v) :: fs =>
    if v.isUndef then renderFields d fs
    else (quoteString k ++ ": " ++ renderJson d v) :: renderFields d fs

end

/-- JSON.stringify(result, null, 2) as the dispatcher applies it. -/
def jsonStringify (j : Json) : String := renderJson 0 j

/-- A JavaScript Error value: only its message is observable here. -/
structure JsError where
  msg : String
deriving DecidableEq

/-- The parameters of the tasks.list remote call. -/
structure TasksListParams where
  tasklist : String
  maxResults : Nat
  showCompleted : Bool
  showHidden : Bool
  dueMin : Option String
  dueMax : Option String
deriving DecidableEq

/-- The parameters of the tasks.get remote call. -/
structure TasksGetParams where
  tasklist : Option String
  task : Option String
deriving DecidableEq

/-- The request body createTask builds (lines 84-89 of tasks-api.js). -/
structure InsertBody where
  title : Option String
  notes : Option String
  due : Option String
  status : String
deriving DecidableEq

/-- The parameters of the tasks.insert remote call; parent is attached only
when the createTask guard fires. -/
structure TasksInsertParams where
  tasklist : String
  requestBody : InsertBody
  parent : Option String
deriving DecidableEq

/-- The request body updateTask builds: a field is occupied only when the
update provides it. -/
structure PatchBody where
  title : Option String
  notes : Option String
  due : Option String
  status : Option String
  completed : Option String
deriving DecidableEq

/-- The parameters of the tasks.patch remote call. -/
structure TasksPatchParams where
  tasklist : Option String
  task : Option String
  requestBody : PatchBody
deriving DecidableEq

/-- The parameters of the tasks.delete remote call. -/
structure TasksDeleteParams where
  tasklist : Option String
  task : Option String
deriving DecidableEq

/-- The parameters of the tasks.move remote call. -/
structure TasksMoveParams where
  tasklist : Option String
  task : Option String
  parent : Option String
  previous : Option String
deriving DecidableEq

/-- One outbound call to the remote Google Tasks service. -/
inductive RemoteCall where
  | tasklistsList : Nat → RemoteCall
  | tasksList : TasksListParams → RemoteCall
  | tasksGet : TasksGetParams → RemoteCall
  | tasksInsert : TasksInsertParams → RemoteCall
  | tasksPatch : TasksPatchParams → RemoteCall
  | tasksDelete : TasksDeleteParams → RemoteCall
  | tasksMove : TasksMoveParams → RemoteCall
deriving DecidableEq

/-- The environment a tool call runs in: whether the two local authorization
files exist, the current clock reading (new Date().toISOString()), and the
remote service modelled as one response function per endpoint, each of which
may either answer or throw. -/
structure Env where
  credsExist : Bool
  tokensExist : Bool
  now : String
  onTasklistsList : Nat → Except JsError (Option (List RawTaskList))
  onTasksList : TasksListParams → Except JsError (Option (List RawTask))
  onTasksGet : TasksGetParams → Except JsError RawTask
  onTasksInsert : TasksInsertParams → Except JsError RawTask
  onTasksPatch : TasksPatchParams → Except JsError RawTask
  onTasksDelete : TasksDeleteParams → Except JsError Unit
  onTasksMove : TasksMoveParams → Except JsError RawTask

/-- tasks-api.js buildClient (lines 17-35): fails fast when either local
authorization file is missing, checking the credentials file first; the
authenticated client itself carries no data this model tracks. -/
def buildClient (env : Env) : Except JsError Unit :=
  if !env.credsExist then .error ⟨"Missing .credentials.json — run: node src/auth.js"⟩
  else if !env.tokensExist then .error ⟨"Missing .tokens.json — run: node src/auth.js"⟩
  else .ok ()

/-- tasks-api.js listTaskLists (lines 40-48): one tasklists.list call with
maxResults 100; absent items default to the empty list. Returns the result or
the thrown error, together with the remote calls issued. -/
def listTaskLists (env : Env) : Except JsError (List TaskListOut) × List RemoteCall :=
  match buildClient env with
  | .error e => (.error e, [])
  | .ok _ =>
    match env.onTasklistsList 100 with
    | .error e => (.error e, [.tasklistsList 100])
    | .ok items => (.ok ((items.getD []).map formatTaskList), [.tasklistsList 100])

/-- The option bag listTasks receives. -/
structure ListTasksOpts where
  showCompleted : Option Bool := none
  showHidden : Option Bool := none
  dueMin : Option String := none
  dueMax : Option String := none
deriving DecidableEq

/-- The tasks.list parameters listTasks builds (lines 57-64): the nullish
defaults of showCompleted and showHidden are false. -/
def listTasksParams (tasklistId : String) (opts : ListTasksOpts) : TasksListParams :=
  { tasklist := tasklistId
    maxResults := 100
    showCompleted := opts.showCompleted.getD false
    showHidden := opts.showHidden.getD false
    dueMin := opts.dueMin
    dueMax := opts.dueMax }

/-- tasks-api.js listTasks (lines 55-66); the default parameter value
"@default" applies when the task-list id is absent. -/
def listTasks (env : Env) (tasklistId : Option String) (opts : ListTasksOpts) :
    Except JsError (List FormattedTask) × List RemoteCall :=
  let tl := tasklistId.getD "@default"
  match buildClient env with
  | .error e => (.error e, [])
  | .ok _ =>
    let p := listTasksParams tl opts
    match env.onTasksList p with
    | .error e => (.error e, [.tasksList p])
    | .ok items => (.ok ((items.getD []).map formatTask), [.tasksList p])

/-- tasks-api.js getTask (lines 71-75). -/
def getTask (env : Env) (tasklistId taskId : Option String) :
    Except JsError FormattedTask × List RemoteCall :=
  match buildClient env with
  | .error e => (.error e, [])
  | .ok _ =>
    let p : TasksGetParams := ⟨tasklistId, taskId⟩
    match env.onTasksGet p with
    | .error e => (.error e, [.tasksGet p])
    | .ok t => (.ok (formatTask t), [.tasksGet p])

/-- The argument object of createTask. -/
structure NewTask where
  title : Option String := none
  notes : Option String := none
  due : Option String := none
  parent : Option String := none
deriving DecidableEq

/-- The insert request createTask sends (lines 84-91): the body carries the
given title, notes and due with status forced to "needsAction", and the
parent is attached as a request parameter only when truthy
(if (task.parent) params.parent = task.parent). -/
def createTaskParams (tasklistId : String) (task : NewTask) : TasksInsertParams :=
  { tasklist := tasklistId
    requestBody :=
      { title := task.title, notes := task.notes, due := task.due, status := "needsAction" }
    parent :=
      match task.parent with
      | some p => if p = "" then none else some p
      | none => none }

/-- tasks-api.js createTask (lines 82-94). -/
def createTask (env : Env) (tasklistId : Option String) (task : NewTask) :
    Except JsError FormattedTask × List RemoteCall :=
  let tl := tasklistId.getD "@default"
  match buildClient env with
  | .error e => (.error e, [])
  | .ok _ =>
    let p := createTaskParams tl task
    match env.onTasksInsert p with
    | .error e => (.error e, [.tasksInsert p])
    | .ok t => (.ok (formatTask t), [.tasksInsert p])

/-- The argument object of updateTask. -/
structure TaskUpdates where
  title : Option String := none
  notes : Option String := none
  due : Option String := none
  status : Option String := none
deriving DecidableEq

/-- The patch body updateTask builds (lines 104-109): each field is copied
exactly when the update defines it, and completed is stamped with the current
time when status is set to "completed". -/
def updateTaskBody (updates : TaskUpdates) (now : String) : PatchBody :=
  { title := updates.title
    notes := updates.notes
    due := updates.due
    status := updates.status
    completed := if updates.status = some "completed" then some now else none }

/-- tasks-api.js updateTask (lines 102-112). -/
def updateTask (env : Env) (tasklistId taskId : Option String) (updates : TaskUpdates) :
    Except JsError FormattedTask × List RemoteCall :=
  match buildClient env with
  | .error e => (.error e, [])
  | .ok _ =>
    let p : TasksPatchParams := ⟨tasklistId, taskId, updateTaskBody updates env.now⟩
    match env.onTasksPatch p with
    | .error e => (.error e, [.tasksPatch p])
    | .ok t => (.ok (formatTask t), [.tasksPatch p])

/-- tasks-api.js completeTask (lines 117-119): delegate to updateTask with
the single field status = "completed". -/
def completeTask (env : Env) (tasklistId taskId : Option String) :
    Except JsError FormattedTask × List RemoteCall :=
  updateTask env tasklistId taskId { status := some "completed" }

/-- The object deleteTask returns. -/
structure DeleteResult where
  deleted : Bool
  taskId : Option String
deriving DecidableEq

/-- The delete result as a JSON value. -/
def DeleteResult.toJson (r : DeleteResult) : Json :=
  .obj [("deleted", .bool r.deleted), ("taskId", Json.optUndef r.taskId)]

/-- tasks-api.js deleteTask (lines 124-128). -/
def deleteTask (env : Env) (tasklistId taskId : Option String) :
    Except JsError DeleteResult × List RemoteCall :=
  match buildClient env with
  | .error e => (.error e, [])
  | .ok _ =>
    let p : TasksDeleteParams := ⟨tasklistId, taskId⟩
    match env.onTasksDelete p with
    | .error e => (.error e, [.tasksDelete p])
    | .ok _ => (.ok ⟨true, taskId⟩, [.tasksDelete p])

/-- The option bag moveTask receives. -/
structure MoveOpts where
  parent : Option String := none
  previous : Option String := none
deriving DecidableEq

/-- tasks-api.js moveTask (lines 133-142): parent and previous pass through
with no truthiness guard. -/
def moveTask (env : Env) (tasklistId taskId : Option String) (opts : MoveOpts) :
    Except JsError FormattedTask × List RemoteCall :=
  match buildClient env with
  | .error e => (.error e, [])
  | .ok _ =>
    let p : TasksMoveParams := ⟨tasklistId, taskId, opts.parent, opts.previous⟩
    match env.onTasksMove p with
    | .error e => (.error e, [.tasksMove p])
    | .ok t => (.ok (formatTask t), [.tasksMove p])

/-- One property of an input schema: its declared type, optional default and
optional enumeration. The prose description strings of index.js are omitted:
no property of the program refers to them. -/
structure PropSchema where
  type : String
  default : Option Json := none
  enum : Option (List String) := none

/-- A JSON-Schema-like input schema: the declared properties in order and the
required subset. -/
structure InputSchema where
  type : String
  properties : List (String × PropSchema)
  required : List String

/-- One tool descriptor of the TOOLS registry. -/
structure ToolDescriptor where
  name : String
  inputSchema : InputSchema

/-- index.js TOOLS (lines 36-176): the static registry of the eight tools. -/
def TOOLS : List ToolDescriptor :=
  [{ name := "list_task_lists"
     inputSchema := { type := "object", properties := [], required := [] } },
   { name := "list_tasks"
     inputSchema :=
       { type := "object"
         properties :=
           [("tasklist_id", { type := "string", default := some (.str "@default") }),
            ("show_completed", { type := "boolean", default := some (.bool false) }),
            ("due_min", { type := "string" }),
            ("due_max", { type := "string" })]
         required := [] } },
   { name := "get_task"
     inputSchema :=
       { type := "object"
         properties :=
           [("tasklist_id", { type := "string" }),
            ("task_id", { type := "string" })]
         required := ["tasklist_id", "task_id"] } },
   { name := "create_task"
     inputSchema :=
       { type := "object"
         properties :=
           [("tasklist_id", { type := "string", default := some (.str "@default") }),
            ("title", { type := "string" }),
            ("notes", { type := "string" }),
            ("due", { type := "string" }),
            ("parent", { type := "string" })]
         required := ["title"] } },
   { name := "update_task"
     inputSchema :=
       { type := "object"
         properties :=
           [("tasklist_id", { type := "string" }),
            ("task_id", { type := "string" }),
            ("title", { type := "string" }),
            ("notes", { type := "string" }),
            ("due", { type := "string" }),
            ("status", { type := "string", enum := some ["needsAction", "completed"] })]
         required := ["tasklist_id", "task_id"] } },
   { name := "complete_task"
     inputSchema :=
       { type := "object"
         properties :=
           [("tasklist_id", { type := "string" }),
            ("task_id", { type := "string" })]
         required := ["tasklist_id", "task_id"] } },
   { name := "delete_task"
     inputSchema :=
       { type := "object"
         properties :=
           [("tasklist_id", { type := "string" }),
            ("task_id", { type := "string" })]
         required := ["tasklist_id", "task_id"] } },
   { name := "move_task"
     inputSchema :=
       { type := "object"
         properties :=
           [("tasklist_id", { type := "string" }),
            ("task_id", { type := "string" }),
            ("parent", { type := "string" }),
            ("previous", { type := "string" })]
         required := ["tasklist_id", "task_id"] } }]

/-- The names of the registered tools, in registry order. -/
def toolNames : List String := TOOLS.map ToolDescriptor.name

/-- index.js line 185: the ListToolsRequestSchema handler returns the constant
TOOLS registry on every call, whatever the state of the environment. -/
def listTools (_env : Env) : List ToolDescriptor := TOOLS

/-- The argument bag of a tool call: every field the eight schemas mention,
each possibly absent. -/
structure Args where
  tasklist_id : Option String := none
  task_id : Option String := none
  title : Option String := none
  notes : Option String := none
  due : Option String := none
  status : Option String := none
  parent : Option String := none
  previous : Option String := none
  due_min : Option String := none
  due_max : Option String := none
  show_completed : Option Bool := none
deriving DecidableEq

/-- The switch of the CallToolRequestSchema handler (index.js lines 194-246):
route the call to the matching data-client operation, encoding the handler
result as the JSON value the serializer will receive; an unmatched name
throws Error("Unknown tool: " + name) and issues no remote call. -/
def dispatch (env : Env) (name : String) (args : Args) :
    Except JsError Json × List RemoteCall :=
  if name = "list_task_lists" then
    let p := listTaskLists env
    (p.1.map (fun ls => Json.arr (ls.map TaskListOut.toJson)), p.2)
  else if name = "list_tasks" then
    let p := listTasks env (some (jsOrDefault args.tasklist_id "@default"))
      { showCompleted := args.show_completed, showHidden := none,
        dueMin := args.due_min, dueMax := args.due_max }
    (p.1.map (fun ts => Json.arr (ts.map FormattedTask.toJson)), p.2)
  else if name = "get_task" then
    let p := getTask env args.tasklist_id args.task_id
    (p.1.map FormattedTask.toJson, p.2)
  else if name = "create_task" then
    let p := createTask env (some (jsOrDefault args.tasklist_id "@default"))
      { title := args.title, notes := args.notes, due := args.due, parent := args.parent }
    (p.1.map FormattedTask.toJson, p.2)
  else if name = "update_task" then
    let p := updateTask env args.tasklist_id args.task_id
      { title := args.title, notes := args.notes, due := args.due, status := args.status }
    (p.1.map FormattedTask.toJson, p.2)
  else if name = "complete_task" then
    let p := completeTask env args.tasklist_id args.task_id
    (p.1.map FormattedTask.toJson, p.2)
  else if name = "delete_task" then
    let p := deleteTask env args.tasklist_id args.task_id
    (p.1.map DeleteResult.toJson, p.2)
  else if name = "move_task" then
    let p := moveTask env args.tasklist_id args.task_id ⟨args.parent, args.previous⟩
    (p.1.map FormattedTask.toJson, p.2)
  else (.error ⟨"Unknown tool: " ++ name⟩, [])

/-- One element of the content array of a tool result. -/
structure ContentItem where
  type : String
  text : String
deriving DecidableEq

/-- The response envelope of a tool call. isError is optional: the success
branch of the handler omits it entirely, the catch branch sets it to true. -/
structure ToolResult where
  content : List ContentItem
  isError : Option Bool
deriving DecidableEq

/-- The try/catch around the switch (index.js lines 191-256): a successful
handler result is serialized into one text content element with no isError
field; any thrown error is caught and returned as "Error: " plus its message
with isError set to true. -/
def callTool (env : Env) (name : String) (args : Args) : ToolResult × List RemoteCall :=
  let p := dispatch env name args
  (match p.1 with
   | .ok j => { content := [⟨"text", jsonStringify j⟩], isError := none }
   | .error e => { content := [⟨"text", "Error: " ++ e.msg⟩], isError := some true },
   p.2)

/-- Following the words of section 6 of the spec: its tool table, giving for
each tool name the required parameters and the optional parameters. Stated
separately from TOOLS so the registry can be compared against it. -/
def specToolTable : List (String × List String × List String) :=
  [("list_task_lists", ([], [])),
   ("list_tasks", ([], ["tasklist_id", "show_completed", "due_min", "due_max"])),
   ("get_task", (["tasklist_id", "task_id"], [])),
   ("create_task", (["title"], ["tasklist_id", "notes", "due", "parent"])),
   ("update_task", (["tasklist_id", "task_id"], ["title", "notes", "due", "status"])),
   ("complete_task", (["tasklist_id", "task_id"], [])),
   ("delete_task", (["tasklist_id", "task_id"], [])),
   ("move_task", (["tasklist_id", "task_id"], ["parent", "previous"]))]

/-- Whether one registered descriptor agrees with one row of the spec table:
same name, the same required subset, and the declared properties are exactly
the required and optional parameters of the row (as sets). -/
def toolMatchesRow (td : ToolDescriptor) (row : String × List String × List String) : Bool :=
  td.name == row.1 &&
  td.inputSchema.required.isPerm row.2.1 &&
  (td.inputSchema.properties.map Prod.fst).isPerm (row.2.1 ++ row.2.2)

/-- Following the words of section 3 of the spec: the nine field names of its
Task data model, in the order the spec lists them. -/
def specTaskFieldNames : List String :=
  ["id", "title", "notes", "status", "due", "completed", "parent", "position", "updated"]

/-- A concrete raw task record used to instantiate the general theorems. -/
def sampleRawTask : RawTask :=
  { id := some "t1"
    title := some "Buy milk"
    status := some "needsAction"
    position := some "00000000000000000001"
    updated := some "2026-01-02T03:04:05.000Z"
    selfLink := some "https://www.googleapis.com/tasks/v1/lists/l1/tasks/t1" }

/-- A concrete raw task-list record used to instantiate the general
theorems. -/
def sampleRawTaskList : RawTaskList :=
  { id := some "l1", title := some "My list", updated := some "2026-01-01T00:00:00.000Z" }

/-- A concrete environment: both authorization files present and a remote
service that answers every endpoint; the insert endpoint echoes the request
body back the way the real service reflects stored fields. -/
def sampleEnv : Env :=
  { credsExist := true
    tokensExist := true
    now := "2026-01-03T00:00:00.000Z"
    onTasklistsList := fun _ => .ok (some [sampleRawTaskList])
    onTasksList := fun _ => .ok (some [sampleRawTask])
    onTasksGet := fun _ => .ok sampleRawTask
    onTasksInsert := fun p => .ok
      { id := some "t2"
        title := p.requestBody.title
        notes := p.requestBody.notes
        status := some p.requestBody.status
        due := p.requestBody.due
        completed := none
        parent := p.parent
        position := some "00000000000000000002"
        updated := some "2026-01-03T00:00:00.000Z"
        selfLink := some "https://www.googleapis.com/tasks/v1/lists/l1/tasks/t2" }
    onTasksPatch := fun _ => .ok sampleRawTask
    onTasksDelete := fun _ => .ok ()
    onTasksMove := fun _ => .ok sampleRawTask }

/-- The same environment with the credentials file removed. -/
def noCredsEnv : Env := { sampleEnv with credsExist := false }

/-- The JSON value the list_task_lists handler produces under sampleEnv. -/
def sampleListsJson : Json :=
  .arr [.obj [("id", .str "l1"), ("title", .str "My list"),
              ("updated", .str "2026-01-01T00:00:00.000Z")]]

/-- The raw record sampleEnv echoes back for an insert that carries only the
title "Buy milk". -/
def sampleCreatedTask : RawTask :=
  { id := some "t2"
    title := some "Buy milk"
    notes := none
    status := some "needsAction"
    due := none
    completed := none
    parent := none
    position := some "00000000000000000002"
    updated := some "2026-01-03T00:00:00.000Z"
    selfLink := some "https://www.googleapis.com/tasks/v1/lists/l1/tasks/t2" }

/-- Arguments that name a task and set only the status field. -/
def sampleCompleteArgs : Args :=
  { tasklist_id := some "l1", task_id := some "t1", status := some "completed" }

theorem jsOrEmpty_some (s : String) : jsOrEmpty (some s) = s := by
  by_cases h : s = "" <;> simp [jsOrEmpty, h]

theorem jsOrNull_idem (o : Option String) : jsOrNull (jsOrNull o) = jsOrNull o := by
  cases o with
  | none => rfl
  | some s => by_cases h : s = "" <;> simp [jsOrNull, h]

theorem buildClient_ok (env : Env) (h1 : env.credsExist = true)
    (h2 : env.tokensExist = true) : buildClient env = .ok () := by
  simp [buildClient, h1, h2]

/-- C5: normalization is idempotent: reading an already formatted task back
as a record and formatting it again changes nothing, field for field. -/
theorem formatTask_idempotent (t : RawTask) :
    formatTask (formatTask t).toRaw = formatTask t := by
  simp [formatTask, FormattedTask.toRaw, jsOrEmpty_some, jsOrNull_idem]

/-- C10: every normalized task carries a tenth field selfLink passed through
from the raw record, on top of the nine fields of the documented Task shape,
in the documented order. -/
theorem formatTask_has_selfLink :
    (∀ t : RawTask, (formatTask t).selfLink = t.selfLink) ∧
    (∀ t : RawTask, (formatTask t).jsonPairs.map Prod.fst =
      specTaskFieldNames ++ ["selfLink"]) :=
  ⟨fun _ => rfl, fun _ => rfl⟩

/-- C3: the registry holds exactly eight descriptors, one per tool name, its
result does not depend on the environment, and each descriptor declares
exactly the parameters and the required subset of the section 6 table. -/
theorem listTools_matches_spec_table :
    TOOLS.length = 8 ∧
    (TOOLS.map ToolDescriptor.name).Nodup ∧
    (∀ e₁ e₂ : Env, listTools e₁ = listTools e₂) ∧
    TOOLS.map ToolDescriptor.name = specToolTable.map Prod.fst ∧
    ((TOOLS.zip specToolTable).all fun p => toolMatchesRow p.1 p.2) = true :=
  ⟨rfl, by decide, fun _ _ => rfl, by decide, by decide⟩

/-- C1: every error a handler throws is caught at the dispatch boundary and
turned into a ToolResult with isError true whose text embeds the message; a
name outside the registry throws exactly Error("Unknown tool: " + name) and
issues no remote call. -/
theorem callTool_catches_errors :
    (∀ (env : Env) (name : String) (args : Args) (e : JsError),
        (dispatch env name args).1 = .error e →
        (callTool env name args).1 =
          { content := [⟨"text", "Error: " ++ e.msg⟩], isError := some true }) ∧
    (∀ (env : Env) (name : String) (args : Args),
        name ∉ toolNames →
        dispatch env name args = (.error ⟨"Unknown tool: " ++ name⟩, [])) := by
  constructor
  · intro env name args e h
    simp [callTool, h]
  · intro env name args h
    simp only [toolNames, TOOLS, List.map, List.mem_cons, List.not_mem_nil,
      or_false, not_or] at h
    obtain ⟨h1, h2, h3, h4, h5, h6, h7, h8⟩ := h
    simp [dispatch, h1, h2, h3, h4, h5, h6, h7, h8]

theorem callTool_catches_errors_witness :
    dispatch sampleEnv "unknown_tool_xyz" {} =
      (.error ⟨"Unknown tool: unknown_tool_xyz"⟩, []) ∧
    (callTool sampleEnv "unknown_tool_xyz" {}).1 =
      { content := [⟨"text", "Error: Unknown tool: unknown_tool_xyz"⟩],
        isError := some true } := by
  have h2 := callTool_catches_errors.2 sampleEnv "unknown_tool_xyz" {} (by decide)
  have h1 := callTool_catches_errors.1 sampleEnv "unknown_tool_xyz" {}
    ⟨"Unknown tool: unknown_tool_xyz"⟩ (by rw [h2]; rfl)
  exact ⟨by rw [h2]; rfl, by rw [h1]; rfl⟩

/-- C2 counterexample: on a successful handler the returned envelope does not
set isError to false; the field is absent altogether. -/
theorem callTool_success_isError_absent :
    (dispatch sampleEnv "list_task_lists" {}).1 = .ok sampleListsJson ∧
    (callTool sampleEnv "list_task_lists" {}).1.isError ≠ some false := by
  have h : (callTool sampleEnv "list_task_lists" ({} : Args)).1.isError = none := rfl
  exact ⟨rfl, by rw [h]; simp⟩

/-- C2 (amended): on handler success the result is JSON-serialized into the
single text content element, and the isError field is omitted (absent, which
the protocol reads as not-an-error) rather than set to false. -/
theorem callTool_success_shape :
    ∀ (env : Env) (name : String) (args : Args) (j : Json),
      (dispatch env name args).1 = .ok j →
      (callTool env name args).1 =
        { content := [⟨"text", jsonStringify j⟩], isError := none } := by
  intro env name args j h
  simp [callTool, h]

theorem callTool_success_shape_witness :
    (callTool sampleEnv "list_task_lists" {}).1 =
      { content := [⟨"text", jsonStringify sampleListsJson⟩], isError := none } :=
  callTool_success_shape sampleEnv "list_task_lists" {} sampleListsJson rfl

/-- C4: normalization maps an absent title or notes to the empty string, an
absent due, completed, parent or position to null, passes status and updated
through unchanged, and is applied to the remote record of every operation
that returns a task. -/
theorem formatTask_normalization :
    (∀ t : RawTask,
        (t.title = none → (formatTask t).title = "") ∧
        (t.notes = none → (formatTask t).notes = "") ∧
        (t.due = none → (formatTask t).due = none) ∧
        (t.completed = none → (formatTask t).completed = none) ∧
        (t.parent = none → (formatTask t).parent = none) ∧
        (t.position = none → (formatTask t).position = none) ∧
        (formatTask t).status = t.status ∧
        (formatTask t).updated = t.updated) ∧
    (∀ (env : Env) (tl : Option String) (opts : ListTasksOpts) (rs : List RawTask),
        env.credsExist = true → env.tokensExist = true →
        env.onTasksList (listTasksParams (tl.getD "@default") opts) = .ok (some rs) →
        (listTasks env tl opts).1 = .ok (rs.map formatTask)) ∧
    (∀ (env : Env) (tl tid : Option String) (r : RawTask),
        env.credsExist = true → env.tokensExist = true →
        env.onTasksGet ⟨tl, tid⟩ = .ok r →
        (getTask env tl tid).1 = .ok (formatTask r)) ∧
    (∀ (env : Env) (tl : Option String) (task : NewTask) (r : RawTask),
        env.credsExist = true → env.tokensExist = true →
        env.onTasksInsert (createTaskParams (tl.getD "@default") task) = .ok r →
        (createTask env tl task).1 = .ok (formatTask r)) ∧
    (∀ (env : Env) (tl tid : Option String) (updates : TaskUpdates) (r : RawTask),
        env.credsExist = true → env.tokensExist = true →
        env.onTasksPatch ⟨tl, tid, updateTaskBody updates env.now⟩ = .ok r →
        (updateTask env tl tid updates).1 = .ok (formatTask r)) ∧
    (∀ (env : Env) (tl tid : Option String) (r : RawTask),
        env.credsExist = true → env.tokensExist = true →
        env.onTasksPatch
            ⟨tl, tid, updateTaskBody { status := some "completed" } env.now⟩ = .ok r →
        (completeTask env tl tid).1 = .ok (formatTask r)) ∧
    (∀ (env : Env) (tl tid : Option String) (opts : MoveOpts) (r : RawTask),
        env.credsExist = true → env.tokensExist = true →
        env.onTasksMove ⟨tl, tid, opts.parent, opts.previous⟩ = .ok r →
        (moveTask env tl tid opts).1 = .ok (formatTask r)) := by
  refine ⟨?_, ?_, ?_, ?_, ?_, ?_, ?_⟩
  · intro t
    refine ⟨?_, ?_, ?_, ?_, ?_, ?_, rfl, rfl⟩ <;>
      intro h <;> simp [formatTask, h, jsOrEmpty, jsOrNull]
  · intro env tl opts rs h1 h2 h
    simp [listTasks, buildClient_ok env h1 h2, h]
  · intro env tl tid r h1 h2 h
    simp [getTask, buildClient_ok env h1 h2, h]
  · intro env tl task r h1 h2 h
    simp [createTask, buildClient_ok env h1 h2, h]
  · intro env tl tid updates r h1 h2 h
    simp [updateTask, buildClient_ok env h1 h2, h]
  · intro env tl tid r h1 h2 h
    simp [completeTask, updateTask, buildClient_ok env h1 h2, h]
  · intro env tl tid opts r h1 h2 h
    simp [moveTask, buildClient_ok env h1 h2, h]

theorem formatTask_normalization_witness :
    (formatTask {}).title = "" ∧
    (getTask sampleEnv (some "l1") (some "t1")).1 = .ok (formatTask sampleRawTask) :=
  ⟨(formatTask_normalization.1 {}).1 rfl,
   formatTask_normalization.2.2.1 sampleEnv (some "l1") (some "t1") sampleRawTask
     rfl rfl rfl⟩

/-- C6: completing a task is the same operation as updating it with the
single field status = "completed", both at the data-client level and at the
dispatch level. -/
theorem completeTask_is_update_completed :
    (∀ (env : Env) (tl tid : Option String),
        completeTask env tl tid =
          updateTask env tl tid
            { title := none, notes := none, due := none, status := some "completed" }) ∧
    (∀ (env : Env) (args : Args),
        args.title = none → args.notes = none → args.due = none →
        args.status = some "completed" →
        callTool env "complete_task" args = callTool env "update_task" args) := by
  constructor
  · intro env tl tid
    rfl
  · intro env args h1 h2 h3 h4
    simp [callTool, dispatch, completeTask, h1, h2, h3, h4]

theorem completeTask_is_update_completed_witness :
    callTool sampleEnv "complete_task" sampleCompleteArgs =
      callTool sampleEnv "update_task" sampleCompleteArgs :=
  completeTask_is_update_completed.2 sampleEnv sampleCompleteArgs rfl rfl rfl rfl

/-- C7: the patch body carries exactly the fields the update provides, so an
unspecified field is never sent, and when status is set to "completed" the
body additionally carries a completed stamp equal to the current time; the
operation sends exactly that body in its single patch call. -/
theorem updateTask_partial_update :
    (∀ (updates : TaskUpdates) (now : String),
        (updateTaskBody updates now).title = updates.title ∧
        (updateTaskBody updates now).notes = updates.notes ∧
        (updateTaskBody updates now).due = updates.due ∧
        (updateTaskBody updates now).status = updates.status ∧
        (updates.status = some "completed" →
          (updateTaskBody updates now).completed = some now) ∧
        (updates.status ≠ some "completed" →
          (updateTaskBody updates now).completed = none)) ∧
    (∀ (env : Env) (tl tid : Option String) (updates : TaskUpdates),
        env.credsExist = true → env.tokensExist = true →
        (updateTask env tl tid updates).2 =
          [.tasksPatch ⟨tl, tid, updateTaskBody updates env.now⟩]) := by
  constructor
  · intro updates now
    refine ⟨rfl, rfl, rfl, rfl, ?_, ?_⟩ <;> intro h <;> simp [updateTaskBody, h]
  · intro env tl tid updates h1 h2
    simp only [updateTask, buildClient_ok env h1 h2]
    rcases h : env.onTasksPatch ⟨tl, tid, updateTaskBody updates env.now⟩ with e | t <;>
      simp [h]

theorem updateTask_partial_update_witness :
    (updateTask sampleEnv (some "l1") (some "t1")
        { title := some "New title" }).2 =
      [.tasksPatch ⟨some "l1", some "t1",
        updateTaskBody { title := some "New title" } sampleEnv.now⟩] ∧
    (updateTaskBody { title := some "New title" } sampleEnv.now).notes = none :=
  ⟨updateTask_partial_update.2 sampleEnv (some "l1") (some "t1")
      { title := some "New title" } rfl rfl,
   (updateTask_partial_update.1 { title := some "New title" } sampleEnv.now).2.1⟩

/-- C8 counterexample: a parent that is given as the empty string is dropped
by the truthiness guard, so the insert request carries no parent even though
a parent was given. -/
theorem createTask_empty_parent_counterexample :
    ({ title := some "Buy milk", parent := some "" } : NewTask).parent ≠ none ∧
    (createTaskParams "@default"
        { title := some "Buy milk", parent := some "" }).parent = none := by
  exact ⟨by simp, rfl⟩

/-- C8 (amended): the insert body always carries status "needsAction" and the
given title, notes and due; the parent is attached as an insert parameter
exactly when a non-empty parent string was given; the operation sends exactly
that request; and when the remote record reflects an insert that carried only
a title, the normalized result has that title, empty notes, status
"needsAction", null due and null parent. -/
theorem createTask_insert_shape :
    (∀ (tl : String) (task : NewTask),
        (createTaskParams tl task).requestBody.status = "needsAction" ∧
        (createTaskParams tl task).requestBody.title = task.title ∧
        (createTaskParams tl task).requestBody.notes = task.notes ∧
        (createTaskParams tl task).requestBody.due = task.due) ∧
    (∀ (tl : String) (task : NewTask) (p : String),
        task.parent = some p → p ≠ "" → (createTaskParams tl task).parent = some p) ∧
    (∀ (tl : String) (task : NewTask),
        task.parent = none ∨ task.parent = some "" →
        (createTaskParams tl task).parent = none) ∧
    (∀ (env : Env) (tl : Option String) (task : NewTask),
        env.credsExist = true → env.tokensExist = true →
        (createTask env tl task).2 =
          [.tasksInsert (createTaskParams (tl.getD "@default") task)]) ∧
    (∀ (env : Env) (ti : String) (r : RawTask),
        env.credsExist = true → env.tokensExist = true →
        env.onTasksInsert (createTaskParams "@default" { title := some ti }) = .ok r →
        r.title = some ti → r.notes = none → r.status = some "needsAction" →
        r.due = none → r.parent = none →
        (createTask env (some "@default") { title := some ti }).1 = .ok (formatTask r) ∧
        (formatTask r).title = ti ∧ (formatTask r).notes = "" ∧
        (formatTask r).status = some "needsAction" ∧ (formatTask r).due = none ∧
        (formatTask r).parent = none) := by
  refine ⟨fun tl task => ⟨rfl, rfl, rfl, rfl⟩, ?_, ?_, ?_, ?_⟩
  · intro tl task p hp hne
    simp [createTaskParams, hp, hne]
  · intro tl task hp
    rcases hp with h | h <;> simp [createTaskParams, h]
  · intro env tl task h1 h2
    simp only [createTask, buildClient_ok env h1 h2]
    rcases h : env.onTasksInsert (createTaskParams (tl.getD "@default") task) with e | t <;>
      simp [h]
  · intro env ti r h1 h2 h ht hn hs hd hp
    refine ⟨?_, ?_, ?_, ?_, ?_, ?_⟩
    · simp [createTask, buildClient_ok env h1 h2, h]
    · simp [formatTask, ht, jsOrEmpty_some]
    · simp [formatTask, hn, jsOrEmpty]
    · simp [formatTask, hs]
    · simp [formatTask, hd, jsOrNull]
    · simp [formatTask, hp, jsOrNull]

theorem createTask_insert_shape_witness :
    (createTask sampleEnv (some "@default") { title := some "Buy milk" }).1 =
      .ok (formatTask sampleCreatedTask) ∧
    (formatTask sampleCreatedTask).title = "Buy milk" ∧
    (formatTask sampleCreatedTask).notes = "" ∧
    (formatTask sampleCreatedTask).status = some "needsAction" ∧
    (formatTask sampleCreatedTask).due = none ∧
    (formatTask sampleCreatedTask).parent = none :=
  createTask_insert_shape.2.2.2.2 sampleEnv "Buy milk" sampleCreatedTask
    rfl rfl rfl rfl rfl rfl rfl rfl

/-- C9: when either local authorization file is missing, every one of the
eight tools fails with the missing-file message before any remote call is
issued, and the dispatcher surfaces it with isError true. -/
theorem config_error_fail_fast :
    ∀ (env : Env) (name : String) (args : Args),
      name ∈ toolNames →
      (env.credsExist = false ∨ env.tokensExist = false) →
      (callTool env name args).2 = [] ∧
      (callTool env name args).1 =
        { content := [⟨"text", "Error: " ++
            (if env.credsExist then "Missing .tokens.json — run: node src/auth.js"
             else "Missing .credentials.json — run: node src/auth.js")⟩],
          isError := some true } := by
  intro env name args hmem hcfg
  have hb : buildClient env = .error
      ⟨if env.credsExist then "Missing .tokens.json — run: node src/auth.js"
        else "Missing .credentials.json — run: node src/auth.js"⟩ := by
    rcases hcfg with h | h
    · simp [buildClient, h]
    · by_cases hc : env.credsExist <;> simp [buildClient, h, hc]
  simp only [toolNames, TOOLS, List.map, List.mem_cons, List.not_mem_nil,
    or_false] at hmem
  rcases hmem with rfl | rfl | rfl | rfl | rfl | rfl | rfl | rfl <;>
    constructor <;>
    simp [callTool, dispatch, listTaskLists, listTasks, getTask, createTask,
      updateTask, completeTask, deleteTask, moveTask, Except.map, hb]

theorem config_error_fail_fast_witness :
    (callTool noCredsEnv "get_task" {}).2 = [] ∧
    (callTool noCredsEnv "get_task" {}).1 =
      { content := [⟨"text", "Error: " ++
          (if noCredsEnv.credsExist then "Missing .tokens.json — run: node src/auth.js"
           else "Missing .credentials.json — run: node src/auth.js")⟩],
        isError := some true } :=
  config_error_fail_fast noCredsEnv "get_task" {} (by decide) (Or.inl rfl)

end GoogleTasksMcp
